import Mathlib

/-!
Verification of the worksheet core of the XlsxWriter repository
(src/xlsxwriter/worksheet.py): the sparse cell table, the dimension
tracker, column configuration, span calculation and the XML emission
of the dimension, column and row elements.

Modelling conventions:
* Python integers are `Int`; Python floats are `Rat` (exact rationals).
* Python dicts keyed by integers are association lists `List (Int × α)`
  with `alookup` (plain lookup, `none` when the key is missing, the
  Python `KeyError` case) and `aset` (insert or overwrite).
* The external `Format` objects are opaque style references carrying
  only the index returned by `_get_xf_index`.
* Methods that return `0` on success and `-1` on failure keep those
  `Int` return values.
* Serialization methods emit a list of `XmlEvent` values mirroring the
  calls made to the low level xmlwriter collaborator; paths on which
  the Python code would raise (`KeyError`, `TypeError`) are modelled
  with `Except String`.
-/

/-- Worksheet bound on rows, `self.xls_rowmax` set in the constructor. -/
def xls_rowmax : Int := 1048576

/-- Worksheet bound on columns, `self.xls_colmax` set in the constructor. -/
def xls_colmax : Int := 16384

/-- Opaque style reference; `xf_index` is the value `_get_xf_index` returns. -/
structure FormatRef where
  xf_index : Int
deriving DecidableEq, Repr

/-- Cell values stored in the table. Only the `Number` namedtuple
(`number, format`) appears in the excerpted source. -/
inductive Cell where
  | number (number : Rat) (format : Option FormatRef)
deriving DecidableEq, Repr

/-- Row property tuple `(height, format, hidden, level, collapsed)` stored
in `self.set_rows`. -/
structure RowProps where
  height : Option Rat
  format : Option FormatRef
  hidden : Bool
  level : Int
  collapsed : Bool
deriving DecidableEq, Repr

/-- Column record `[firstcol, lastcol, width, format, hidden, level]`
appended to `self.colinfo` by `set_column`. -/
structure ColInfo where
  firstcol : Int
  lastcol : Int
  width : Option Rat
  format : Option FormatRef
  hidden : Bool
  level : Int
deriving DecidableEq, Repr

/-- Dictionary lookup: `d[k]` when present, `none` otherwise. -/
def alookup {α : Type} : List (Int × α) → Int → Option α
  | [], _ => none
  | (k, v) :: rest, k2 => if k = k2 then some v else alookup rest k2

/-- Dictionary update `d[k] = v` (overwrite or append). -/
def aset {α : Type} : List (Int × α) → Int → α → List (Int × α)
  | [], k, v => [(k, v)]
  | (k1, v1) :: rest, k, v =>
      if k1 = k then (k1, v) :: rest else (k1, v1) :: aset rest k v

/-- Python `range(a, b)` as a list of integers. -/
def intRange (a b : Int) : List Int :=
  (List.range (b - a).toNat).map fun i => a + i

/-- Worksheet state: the fields of `Worksheet.__init__` that the modelled
methods read or write. -/
structure Worksheet where
  optimization : Int
  previous_row : Int
  dim_rowmin : Option Int
  dim_rowmax : Option Int
  dim_colmin : Option Int
  dim_colmax : Option Int
  colinfo : List ColInfo
  set_rows : List (Int × RowProps)
  table : List (Int × List (Int × Cell))
  comments : List (Int × List (Int × Option Unit))
  col_sizes : List (Int × Option Rat)
  col_formats : List (Int × FormatRef)
  col_size_changed : Int
  outline_col_level : Int
  row_spans : List (Int × String)
  excel_version : Int
  default_row_height : Rat
deriving DecidableEq, Repr

/-- The worksheet produced by the constructor (`__init__`). -/
def initWorksheet : Worksheet where
  optimization := 0
  previous_row := 0
  dim_rowmin := none
  dim_rowmax := none
  dim_colmin := none
  dim_colmax := none
  colinfo := []
  set_rows := []
  table := []
  comments := []
  col_sizes := []
  col_formats := []
  col_size_changed := 0
  outline_col_level := 0
  row_spans := []
  excel_version := 2007
  default_row_height := 15

/-- Python truthiness of the `width` argument (`None` and `0` are falsy). -/
def py_truthy_width : Option Rat → Bool
  | none => false
  | some v => decide (v ≠ 0)

/-- Update of a stored minimum: `if cur is None or v < cur: cur = v`. -/
def dim_min_upd (cur : Option Int) (v : Int) : Int :=
  match cur with
  | none => v
  | some m => if v < m then v else m

/-- Update of a stored maximum: `if cur is None or v > cur: cur = v`. -/
def dim_max_upd (cur : Option Int) (v : Int) : Int :=
  match cur with
  | none => v
  | some m => if v > m then v else m

/-- Worksheet._check_dimensions. Checks that `row` and `col` are inside the
worksheet bounds and, unless the corresponding ignore flag is set, widens
the stored dimension extrema. Returns `-1` on failure, `0` on success,
paired with the updated state. -/
def check_dimensions (ws : Worksheet) (row col : Int)
    (ignore_row ignore_col : Bool) : Int × Worksheet :=
  if row ≥ xls_rowmax ∨ col ≥ xls_colmax then
    (-1, ws)
  else if ignore_row = false ∧ ignore_col = false ∧ ws.optimization = 1 ∧
      row < ws.previous_row then
    (-1, ws)
  else
    let ws1 :=
      if ignore_row then ws
      else { ws with dim_rowmin := some (dim_min_upd ws.dim_rowmin row),
                     dim_rowmax := some (dim_max_upd ws.dim_rowmax row) }
    let ws2 :=
      if ignore_col then ws1
      else { ws1 with dim_colmin := some (dim_min_upd ws1.dim_colmin col),
                      dim_colmax := some (dim_max_upd ws1.dim_colmax col) }
    (0, ws2)

/-- Worksheet.write_number. Validates the coordinate through
`check_dimensions` and on success stores a `Number` cell in the sparse
table (`self.table[row][col] = cell_tuple`, the outer dict being a
defaultdict of dicts). -/
def write_number (ws : Worksheet) (row col : Int) (num : Rat)
    (format : Option FormatRef) : Int × Worksheet :=
  let chk := check_dimensions ws row col false false
  if chk.1 ≠ 0 then
    (-1, chk.2)
  else
    let ws1 := chk.2
    let inner := (alookup ws1.table row).getD []
    (0, { ws1 with table := aset ws1.table row
                     (aset inner col (Cell.number num format)) })

/-- Loop body of the final `for col in range(firstcol, lastcol + 1)` of
set_column: store the (possibly zeroed) width in `col_sizes` and, when a
format is present, the format in `col_formats`. -/
def set_column_store (width2 : Option Rat) (format : Option FormatRef)
    (w : Worksheet) (c : Int) : Worksheet :=
  let w1 := { w with col_sizes := aset w.col_sizes c width2 }
  match format with
  | some f => { w1 with col_formats := aset w1.col_formats c f }
  | none => w1

/-- Tail of set_column after both dimension checks succeeded: clamp the
outline level, raise the running maximum, append the colinfo record, mark
the column change and flatten the per column maps. -/
def set_column_tail (ws2 : Worksheet) (firstcol lastcol : Int)
    (width : Option Rat) (format : Option FormatRef) (hidden : Bool)
    (level : Int) : Worksheet :=
  let level1 := if level < 0 then 0 else level
  let level2 := if level1 > 7 then 7 else level1
  let ws3 := if level2 > ws2.outline_col_level then
      { ws2 with outline_col_level := level2 }
    else ws2
  let ws4 := { ws3 with
    colinfo := ws3.colinfo ++
      [{ firstcol := firstcol, lastcol := lastcol, width := width,
         format := format, hidden := hidden, level := level2 }],
    col_size_changed := 1 }
  let width2 := if hidden then some (0 : Rat) else width
  (intRange firstcol (lastcol + 1)).foldl (set_column_store width2 format) ws4

/-- Worksheet.set_column. Normalizes the endpoints (swap when reversed),
validates both through `check_dimensions` with `ignore_row = 1` and
`ignore_col` suppressed unless a format or (width and hidden) is given,
then runs `set_column_tail`. -/
def set_column (ws : Worksheet) (firstcol lastcol : Int) (width : Option Rat)
    (format : Option FormatRef) (hidden : Bool) (level : Int) :
    Int × Worksheet :=
  let c1 := if firstcol > lastcol then lastcol else firstcol
  let c2 := if firstcol > lastcol then firstcol else lastcol
  let ignore_row := true
  let ignore_col := !(format.isSome || (py_truthy_width width && hidden))
  let chk1 := check_dimensions ws 0 c1 ignore_row ignore_col
  if chk1.1 ≠ 0 then
    (-1, chk1.2)
  else
    let chk2 := check_dimensions chk1.2 0 c2 ignore_row ignore_col
    if chk2.1 ≠ 0 then
      (-1, chk2.2)
    else
      (0, set_column_tail chk2.2 c1 c2 width format hidden level)

/-! Helper lemmas about the association list operations and the
dimension updates. -/

theorem alookup_aset_self {α : Type} (l : List (Int × α)) (k : Int) (v : α) :
    alookup (aset l k v) k = some v := by
  induction l with
  | nil => simp [aset, alookup]
  | cons hd tl ih =>
    obtain ⟨k1, v1⟩ := hd
    by_cases h : k1 = k
    · simp [aset, h, alookup]
    · simp [aset, h, alookup, ih]

theorem dim_min_upd_le (cur : Option Int) (v : Int) : dim_min_upd cur v ≤ v := by
  cases cur with
  | none => simp [dim_min_upd]
  | some m => simp only [dim_min_upd]; split <;> omega

theorem dim_max_upd_ge (cur : Option Int) (v : Int) : v ≤ dim_max_upd cur v := by
  cases cur with
  | none => simp [dim_max_upd]
  | some m => simp only [dim_max_upd]; split <;> omega

theorem dim_min_upd_le_old (m v : Int) : dim_min_upd (some m) v ≤ m := by
  simp only [dim_min_upd]; split <;> omega

theorem dim_max_upd_ge_old (m v : Int) : m ≤ dim_max_upd (some m) v := by
  simp only [dim_max_upd]; split <;> omega

/-! Characterizations of `check_dimensions` used throughout. -/

theorem check_dimensions_fail (ws : Worksheet) (row col : Int)
    (ir ic : Bool) (h : row ≥ xls_rowmax ∨ col ≥ xls_colmax) :
    check_dimensions ws row col ir ic = (-1, ws) := by
  unfold check_dimensions
  rw [if_pos h]

theorem check_dimensions_ok (ws : Worksheet) (row col : Int)
    (h : ¬(row ≥ xls_rowmax ∨ col ≥ xls_colmax))
    (hno : ¬(ws.optimization = 1 ∧ row < ws.previous_row)) :
    check_dimensions ws row col false false =
      (0, { ws with
        dim_rowmin := some (dim_min_upd ws.dim_rowmin row),
        dim_rowmax := some (dim_max_upd ws.dim_rowmax row),
        dim_colmin := some (dim_min_upd ws.dim_colmin col),
        dim_colmax := some (dim_max_upd ws.dim_colmax col) }) := by
  unfold check_dimensions
  rw [if_neg h, if_neg (fun hc => hno ⟨hc.2.2.1, hc.2.2.2⟩)]
  rfl

theorem check_dimensions_ok_tt (ws : Worksheet) (row col : Int)
    (h : ¬(row ≥ xls_rowmax ∨ col ≥ xls_colmax)) :
    check_dimensions ws row col true true = (0, ws) := by
  unfold check_dimensions
  rw [if_neg h, if_neg (fun hc => by cases hc.1)]
  rfl

theorem check_dimensions_ok_tf (ws : Worksheet) (row col : Int)
    (h : ¬(row ≥ xls_rowmax ∨ col ≥ xls_colmax)) :
    check_dimensions ws row col true false =
      (0, { ws with
        dim_colmin := some (dim_min_upd ws.dim_colmin col),
        dim_colmax := some (dim_max_upd ws.dim_colmax col) }) := by
  unfold check_dimensions
  rw [if_neg h, if_neg (fun hc => by cases hc.1)]
  rfl

theorem check_dimensions_result (ws : Worksheet) (row col : Int)
    (ir ic : Bool) :
    (check_dimensions ws row col ir ic).1 = 0 ∨
      check_dimensions ws row col ir ic = (-1, ws) := by
  unfold check_dimensions
  split
  · right; rfl
  · split
    · right; rfl
    · left; rfl

/-! Characterizations of `write_number`. -/

theorem write_number_fail (ws : Worksheet) (row col : Int) (num : Rat)
    (format : Option FormatRef) (h : row ≥ xls_rowmax ∨ col ≥ xls_colmax) :
    write_number ws row col num format = (-1, ws) := by
  unfold write_number
  rw [check_dimensions_fail ws row col false false h]
  rfl

theorem write_number_ok (ws : Worksheet) (row col : Int) (num : Rat)
    (format : Option FormatRef)
    (h : ¬(row ≥ xls_rowmax ∨ col ≥ xls_colmax))
    (hno : ¬(ws.optimization = 1 ∧ row < ws.previous_row)) :
    write_number ws row col num format =
      (0, { ws with
        dim_rowmin := some (dim_min_upd ws.dim_rowmin row),
        dim_rowmax := some (dim_max_upd ws.dim_rowmax row),
        dim_colmin := some (dim_min_upd ws.dim_colmin col),
        dim_colmax := some (dim_max_upd ws.dim_colmax col),
        table := aset ws.table row
          (aset ((alookup ws.table row).getD []) col
            (Cell.number num format)) }) := by
  unfold write_number
  rw [check_dimensions_ok ws row col h hno]
  rfl

theorem write_number_result (ws : Worksheet) (row col : Int) (num : Rat)
    (format : Option FormatRef) :
    (write_number ws row col num format).1 = 0 ∨
      write_number ws row col num format = (-1, ws) := by
  rcases check_dimensions_result ws row col false false with h | h
  · left
    unfold write_number
    rcases hc : check_dimensions ws row col false false with ⟨r, ws1⟩
    rw [hc] at h
    have hr : r = 0 := h
    subst hr
    rfl
  · right
    unfold write_number
    rw [h]
    rfl

/-- Claim C1: write_number(row, col, num, format) succeeds if and only if
row < 1,048,576 and col < 16,384; on success the cell is stored and the
dimension bounds afterwards satisfy row_min ≤ row ≤ row_max and
col_min ≤ col ≤ col_max; on failure it returns the out of bounds error
code and the dimension state is exactly what it was before the call.
(Stated for worksheets not in the streaming optimization mode, which the
constructor disables and no modelled operation enables.) -/
theorem write_number_bounds_spec (ws : Worksheet) (row col : Int) (num : Rat)
    (format : Option FormatRef) (hopt : ws.optimization ≠ 1) :
    ((write_number ws row col num format).1 = 0 ↔
        row < 1048576 ∧ col < 16384) ∧
    ((write_number ws row col num format).1 = 0 →
        alookup ((alookup (write_number ws row col num format).2.table row).getD [])
            col = some (Cell.number num format) ∧
        ∃ a b c d,
          (write_number ws row col num format).2.dim_rowmin = some a ∧
          (write_number ws row col num format).2.dim_rowmax = some b ∧
          (write_number ws row col num format).2.dim_colmin = some c ∧
          (write_number ws row col num format).2.dim_colmax = some d ∧
          a ≤ row ∧ row ≤ b ∧ c ≤ col ∧ col ≤ d) ∧
    ((write_number ws row col num format).1 ≠ 0 →
        (write_number ws row col num format).1 = -1 ∧
        (write_number ws row col num format).2.dim_rowmin = ws.dim_rowmin ∧
        (write_number ws row col num format).2.dim_rowmax = ws.dim_rowmax ∧
        (write_number ws row col num format).2.dim_colmin = ws.dim_colmin ∧
        (write_number ws row col num format).2.dim_colmax = ws.dim_colmax) := by
  by_cases hb : row ≥ xls_rowmax ∨ col ≥ xls_colmax
  · rw [write_number_fail ws row col num format hb]
    refine ⟨?_, ?_, ?_⟩
    · constructor
      · intro h; exact absurd h (by norm_num)
      · intro h
        exfalso
        rcases hb with hb | hb
        · simp only [xls_rowmax] at hb; omega
        · simp only [xls_colmax] at hb; omega
    · intro h; exact absurd h (by norm_num)
    · intro _; exact ⟨rfl, rfl, rfl, rfl, rfl⟩
  · have hrow : row < 1048576 := by
      simp only [xls_rowmax, xls_colmax, not_or, not_le] at hb; omega
    have hcol : col < 16384 := by
      simp only [xls_rowmax, xls_colmax, not_or, not_le] at hb; omega
    rw [write_number_ok ws row col num format hb (fun hc => hopt hc.1)]
    refine ⟨?_, ?_, ?_⟩
    · exact ⟨fun _ => ⟨hrow, hcol⟩, fun _ => rfl⟩
    · intro _
      refine ⟨by simp [alookup_aset_self], ?_⟩
      exact ⟨_, _, _, _, rfl, rfl, rfl, rfl,
        dim_min_upd_le _ _, dim_max_upd_ge _ _,
        dim_min_upd_le _ _, dim_max_upd_ge _ _⟩
    · intro h; exact absurd rfl h

/-- Witness for claim C1 at the concrete input (2, 3). -/
theorem write_number_bounds_spec_witness :
    initWorksheet.optimization ≠ 1 ∧
    ((write_number initWorksheet 2 3 7 none).1 = 0 ↔
        (2 : Int) < 1048576 ∧ (3 : Int) < 16384) := by
  have h := write_number_bounds_spec initWorksheet 2 3 7 none (by decide)
  exact ⟨by decide, h.1⟩

/-! Frame lemmas for the tail of set_column. -/

theorem set_column_store_foldl_frame (xs : List Int) (width2 : Option Rat)
    (format : Option FormatRef) (acc : Worksheet) :
    (xs.foldl (set_column_store width2 format) acc).dim_rowmin = acc.dim_rowmin ∧
    (xs.foldl (set_column_store width2 format) acc).dim_rowmax = acc.dim_rowmax ∧
    (xs.foldl (set_column_store width2 format) acc).dim_colmin = acc.dim_colmin ∧
    (xs.foldl (set_column_store width2 format) acc).dim_colmax = acc.dim_colmax ∧
    (xs.foldl (set_column_store width2 format) acc).table = acc.table ∧
    (xs.foldl (set_column_store width2 format) acc).set_rows = acc.set_rows ∧
    (xs.foldl (set_column_store width2 format) acc).comments = acc.comments := by
  induction xs generalizing acc with
  | nil => exact ⟨rfl, rfl, rfl, rfl, rfl, rfl, rfl⟩
  | cons hd tl ih =>
    have hstep : ∀ a : Worksheet,
        (set_column_store width2 format a hd).dim_rowmin = a.dim_rowmin ∧
        (set_column_store width2 format a hd).dim_rowmax = a.dim_rowmax ∧
        (set_column_store width2 format a hd).dim_colmin = a.dim_colmin ∧
        (set_column_store width2 format a hd).dim_colmax = a.dim_colmax ∧
        (set_column_store width2 format a hd).table = a.table ∧
        (set_column_store width2 format a hd).set_rows = a.set_rows ∧
        (set_column_store width2 format a hd).comments = a.comments := by
      intro a
      cases format <;> exact ⟨rfl, rfl, rfl, rfl, rfl, rfl, rfl⟩
    have h1 := ih (set_column_store width2 format acc hd)
    have h2 := hstep acc
    simp only [List.foldl_cons]
    exact ⟨h1.1.trans h2.1, h1.2.1.trans h2.2.1, h1.2.2.1.trans h2.2.2.1,
      h1.2.2.2.1.trans h2.2.2.2.1, h1.2.2.2.2.1.trans h2.2.2.2.2.1,
      h1.2.2.2.2.2.1.trans h2.2.2.2.2.2.1, h1.2.2.2.2.2.2.trans h2.2.2.2.2.2.2⟩

theorem set_column_tail_frame (ws2 : Worksheet) (c1 c2 : Int)
    (width : Option Rat) (format : Option FormatRef) (hidden : Bool)
    (level : Int) :
    (set_column_tail ws2 c1 c2 width format hidden level).dim_rowmin = ws2.dim_rowmin ∧
    (set_column_tail ws2 c1 c2 width format hidden level).dim_rowmax = ws2.dim_rowmax ∧
    (set_column_tail ws2 c1 c2 width format hidden level).dim_colmin = ws2.dim_colmin ∧
    (set_column_tail ws2 c1 c2 width format hidden level).dim_colmax = ws2.dim_colmax ∧
    (set_column_tail ws2 c1 c2 width format hidden level).table = ws2.table ∧
    (set_column_tail ws2 c1 c2 width format hidden level).set_rows = ws2.set_rows ∧
    (set_column_tail ws2 c1 c2 width format hidden level).comments = ws2.comments := by
  simp only [set_column_tail]
  repeat' split
  all_goals exact set_column_store_foldl_frame _ _ _ _

theorem not_bounds_fail_col (c : Int) (hc : c < xls_colmax) :
    ¬((0 : Int) ≥ xls_rowmax ∨ c ≥ xls_colmax) := by
  rintro (h | h)
  · simp only [xls_rowmax] at h; omega
  · omega

theorem set_column_swap (ws : Worksheet) (f l : Int) (w : Option Rat)
    (fmt : Option FormatRef) (hid : Bool) (lvl : Int) (h : f > l) :
    set_column ws f l w fmt hid lvl = set_column ws l f w fmt hid lvl := by
  simp only [set_column,
    show (if f > l then l else f) = l from if_pos h,
    show (if f > l then f else l) = f from if_pos h,
    show (if l > f then f else l) = l from if_neg (by omega),
    show (if l > f then l else f) = f from if_neg (by omega)]

theorem set_column_fail1 (ws : Worksheet) (f l : Int) (w : Option Rat)
    (fmt : Option FormatRef) (hid : Bool) (lvl : Int)
    (hfl : ¬ f > l) (hc : f ≥ xls_colmax) :
    set_column ws f l w fmt hid lvl = (-1, ws) := by
  simp only [set_column,
    show (if f > l then l else f) = f from if_neg hfl,
    show (if f > l then f else l) = l from if_neg hfl]
  rw [check_dimensions_fail ws 0 f _ _ (Or.inr hc)]
  rfl

theorem set_column_fail2_norec (ws : Worksheet) (f l : Int) (w : Option Rat)
    (fmt : Option FormatRef) (hid : Bool) (lvl : Int)
    (hfl : ¬ f > l) (hf : f < xls_colmax) (hl : l ≥ xls_colmax)
    (hrec : (fmt.isSome || (py_truthy_width w && hid)) = false) :
    set_column ws f l w fmt hid lvl = (-1, ws) := by
  simp only [set_column,
    show (if f > l then l else f) = f from if_neg hfl,
    show (if f > l then f else l) = l from if_neg hfl,
    hrec, Bool.not_false]
  rw [check_dimensions_ok_tt ws 0 f (not_bounds_fail_col f hf)]
  rw [show ((0, ws) : Int × Worksheet).2 = ws from rfl,
    check_dimensions_fail ws 0 l _ _ (Or.inr hl)]
  rfl

theorem set_column_fail2_rec (ws : Worksheet) (f l : Int) (w : Option Rat)
    (fmt : Option FormatRef) (hid : Bool) (lvl : Int)
    (hfl : ¬ f > l) (hf : f < xls_colmax) (hl : l ≥ xls_colmax)
    (hrec : (fmt.isSome || (py_truthy_width w && hid)) = true) :
    set_column ws f l w fmt hid lvl =
      (-1, { ws with
        dim_colmin := some (dim_min_upd ws.dim_colmin f),
        dim_colmax := some (dim_max_upd ws.dim_colmax f) }) := by
  simp only [set_column,
    show (if f > l then l else f) = f from if_neg hfl,
    show (if f > l then f else l) = l from if_neg hfl,
    hrec, Bool.not_true]
  rw [check_dimensions_ok_tf ws 0 f (not_bounds_fail_col f hf)]
  rw [show ((0, { ws with
        dim_colmin := some (dim_min_upd ws.dim_colmin f),
        dim_colmax := some (dim_max_upd ws.dim_colmax f) }) : Int × Worksheet).2 =
      { ws with
        dim_colmin := some (dim_min_upd ws.dim_colmin f),
        dim_colmax := some (dim_max_upd ws.dim_colmax f) } from rfl,
    check_dimensions_fail _ 0 l _ _ (Or.inr hl)]
  rfl

theorem set_column_ok_norec (ws : Worksheet) (f l : Int) (w : Option Rat)
    (fmt : Option FormatRef) (hid : Bool) (lvl : Int)
    (hfl : ¬ f > l) (hf : f < xls_colmax) (hl : l < xls_colmax)
    (hrec : (fmt.isSome || (py_truthy_width w && hid)) = false) :
    set_column ws f l w fmt hid lvl = (0, set_column_tail ws f l w fmt hid lvl) := by
  simp only [set_column,
    show (if f > l then l else f) = f from if_neg hfl,
    show (if f > l then f else l) = l from if_neg hfl,
    hrec, Bool.not_false]
  rw [check_dimensions_ok_tt ws 0 f (not_bounds_fail_col f hf)]
  rw [show ((0, ws) : Int × Worksheet).2 = ws from rfl,
    check_dimensions_ok_tt ws 0 l (not_bounds_fail_col l hl)]
  rfl

theorem set_column_ok_rec (ws : Worksheet) (f l : Int) (w : Option Rat)
    (fmt : Option FormatRef) (hid : Bool) (lvl : Int)
    (hfl : ¬ f > l) (hf : f < xls_colmax) (hl : l < xls_colmax)
    (hrec : (fmt.isSome || (py_truthy_width w && hid)) = true) :
    set_column ws f l w fmt hid lvl =
      (0, set_column_tail
        { ws with
          dim_colmin := some (dim_min_upd (some (dim_min_upd ws.dim_colmin f)) l),
          dim_colmax := some (dim_max_upd (some (dim_max_upd ws.dim_colmax f)) l) }
        f l w fmt hid lvl) := by
  simp only [set_column,
    show (if f > l then l else f) = f from if_neg hfl,
    show (if f > l then f else l) = l from if_neg hfl,
    hrec, Bool.not_true]
  rw [check_dimensions_ok_tf ws 0 f (not_bounds_fail_col f hf)]
  rw [show ((0, { ws with
        dim_colmin := some (dim_min_upd ws.dim_colmin f),
        dim_colmax := some (dim_max_upd ws.dim_colmax f) }) : Int × Worksheet).2 =
      { ws with
        dim_colmin := some (dim_min_upd ws.dim_colmin f),
        dim_colmax := some (dim_max_upd ws.dim_colmax f) } from rfl,
    check_dimensions_ok_tf _ 0 l (not_bounds_fail_col l hl)]
  rfl

/-- Claim C5 counterexample: write_number with the negative row -1 is NOT
rejected: it returns success, stores the cell at row -1 and records -1 as
the row minimum of the dimension tracker. -/
theorem write_number_negative_counterexample :
    (write_number initWorksheet (-1) 0 5 none).1 = 0 ∧
    (write_number initWorksheet (-1) 0 5 none).2.dim_rowmin = some (-1) ∧
    alookup ((alookup (write_number initWorksheet (-1) 0 5 none).2.table
        (-1)).getD []) 0 = some (Cell.number 5 none) := by
  decide

/-- Claim C5 (amended): negative indices are not rejected by the bounds
check, which only tests row ≥ 1,048,576 and col ≥ 16,384: a write_number
call with a negative row or column (and both indices below the upper
bounds) succeeds, stores the cell at the negative coordinate, and the
dimension bounds widen to include the negative index. -/
theorem write_number_negative_accepted (ws : Worksheet) (row col : Int)
    (num : Rat) (format : Option FormatRef) (hopt : ws.optimization ≠ 1)
    (hrow : row < 1048576) (hcol : col < 16384)
    (hneg : row < 0 ∨ col < 0) :
    (write_number ws row col num format).1 = 0 ∧
    alookup ((alookup (write_number ws row col num format).2.table row).getD [])
        col = some (Cell.number num format) ∧
    ∃ a b c d,
      (write_number ws row col num format).2.dim_rowmin = some a ∧
      (write_number ws row col num format).2.dim_rowmax = some b ∧
      (write_number ws row col num format).2.dim_colmin = some c ∧
      (write_number ws row col num format).2.dim_colmax = some d ∧
      a ≤ row ∧ row ≤ b ∧ c ≤ col ∧ col ≤ d := by
  have hb : ¬(row ≥ xls_rowmax ∨ col ≥ xls_colmax) := by
    rintro (h | h)
    · simp only [xls_rowmax] at h; omega
    · simp only [xls_colmax] at h; omega
  rw [write_number_ok ws row col num format hb (fun hc => hopt hc.1)]
  refine ⟨rfl, by simp [alookup_aset_self], ?_⟩
  exact ⟨_, _, _, _, rfl, rfl, rfl, rfl,
    dim_min_upd_le _ _, dim_max_upd_ge _ _,
    dim_min_upd_le _ _, dim_max_upd_ge _ _⟩

/-- Witness for the amended claim C5 at the concrete input (-1, 0). -/
theorem write_number_negative_accepted_witness :
    (write_number initWorksheet (-1) 0 5 none).1 = 0 := by
  exact (write_number_negative_accepted initWorksheet (-1) 0 5 none
    (by decide) (by decide) (by decide) (Or.inl (by decide))).1

/-- Claim C2 counterexample: set_column(0, 20000, None, format, False, 0)
with a valid first column, an out of bounds last column and a style
returns the out of bounds error, yet the column dimension minimum has
changed from undefined to 0, so the error path is not atomic. -/
theorem set_column_partial_mutation_counterexample :
    (set_column initWorksheet 0 20000 none (some ⟨1⟩) false 0).1 = -1 ∧
    (set_column initWorksheet 0 20000 none (some ⟨1⟩) false 0).2.dim_colmin =
      some 0 ∧
    initWorksheet.dim_colmin = none := by
  decide

/-- Claim C2 (amended): write_number is atomic on its error path (the
whole state is returned unchanged); set_column on its error path leaves
every component unchanged except possibly the column dimension bounds,
and when column-dimension recording is suppressed (no style and not both
width and hidden) the error path of set_column changes nothing at all.
When recording is enabled and the smaller column is in bounds, the
column bounds widen to include that column before the failure is
detected. -/
theorem bounds_error_atomicity (ws : Worksheet) (row col : Int) (num : Rat)
    (cfmt : Option FormatRef) (f l : Int) (w : Option Rat)
    (fmt : Option FormatRef) (hid : Bool) (lvl : Int) :
    ((write_number ws row col num cfmt).1 ≠ 0 →
      (write_number ws row col num cfmt).2 = ws) ∧
    ((set_column ws f l w fmt hid lvl).1 ≠ 0 →
      (set_column ws f l w fmt hid lvl).2.table = ws.table ∧
      (set_column ws f l w fmt hid lvl).2.colinfo = ws.colinfo ∧
      (set_column ws f l w fmt hid lvl).2.col_sizes = ws.col_sizes ∧
      (set_column ws f l w fmt hid lvl).2.col_formats = ws.col_formats ∧
      (set_column ws f l w fmt hid lvl).2.outline_col_level = ws.outline_col_level ∧
      (set_column ws f l w fmt hid lvl).2.col_size_changed = ws.col_size_changed ∧
      (set_column ws f l w fmt hid lvl).2.dim_rowmin = ws.dim_rowmin ∧
      (set_column ws f l w fmt hid lvl).2.dim_rowmax = ws.dim_rowmax ∧
      (set_column ws f l w fmt hid lvl).2.set_rows = ws.set_rows ∧
      (set_column ws f l w fmt hid lvl).2.comments = ws.comments) ∧
    ((set_column ws f l w fmt hid lvl).1 ≠ 0 →
      (fmt.isSome || (py_truthy_width w && hid)) = false →
      (set_column ws f l w fmt hid lvl).2 = ws) := by
  have hmain : ∀ (ws : Worksheet) (f l : Int), ¬ f > l →
      ((set_column ws f l w fmt hid lvl).1 ≠ 0 →
        (set_column ws f l w fmt hid lvl).2.table = ws.table ∧
        (set_column ws f l w fmt hid lvl).2.colinfo = ws.colinfo ∧
        (set_column ws f l w fmt hid lvl).2.col_sizes = ws.col_sizes ∧
        (set_column ws f l w fmt hid lvl).2.col_formats = ws.col_formats ∧
        (set_column ws f l w fmt hid lvl).2.outline_col_level = ws.outline_col_level ∧
        (set_column ws f l w fmt hid lvl).2.col_size_changed = ws.col_size_changed ∧
        (set_column ws f l w fmt hid lvl).2.dim_rowmin = ws.dim_rowmin ∧
        (set_column ws f l w fmt hid lvl).2.dim_rowmax = ws.dim_rowmax ∧
        (set_column ws f l w fmt hid lvl).2.set_rows = ws.set_rows ∧
        (set_column ws f l w fmt hid lvl).2.comments = ws.comments) ∧
      ((set_column ws f l w fmt hid lvl).1 ≠ 0 →
        (fmt.isSome || (py_truthy_width w && hid)) = false →
        (set_column ws f l w fmt hid lvl).2 = ws) := by
    intro ws f l hfl
    by_cases hf : f ≥ xls_colmax
    · rw [set_column_fail1 ws f l w fmt hid lvl hfl hf]
      exact ⟨fun _ => ⟨rfl, rfl, rfl, rfl, rfl, rfl, rfl, rfl, rfl, rfl⟩,
        fun _ _ => rfl⟩
    · push_neg at hf
      by_cases hl : l ≥ xls_colmax
      · rcases hrec : (fmt.isSome || (py_truthy_width w && hid)) with _ | _
        · rw [set_column_fail2_norec ws f l w fmt hid lvl hfl hf hl hrec]
          exact ⟨fun _ => ⟨rfl, rfl, rfl, rfl, rfl, rfl, rfl, rfl, rfl, rfl⟩,
            fun _ _ => rfl⟩
        · rw [set_column_fail2_rec ws f l w fmt hid lvl hfl hf hl hrec]
          exact ⟨fun _ => ⟨rfl, rfl, rfl, rfl, rfl, rfl, rfl, rfl, rfl, rfl⟩,
            fun _ hc => by cases hc⟩
      · push_neg at hl
        rcases hrec : (fmt.isSome || (py_truthy_width w && hid)) with _ | _
        · rw [set_column_ok_norec ws f l w fmt hid lvl hfl hf hl hrec]
          exact ⟨fun h => absurd rfl h, fun h => absurd rfl h⟩
        · rw [set_column_ok_rec ws f l w fmt hid lvl hfl hf hl hrec]
          exact ⟨fun h => absurd rfl h, fun h => absurd rfl h⟩
  refine ⟨?_, ?_, ?_⟩
  · intro h
    rcases write_number_result ws row col num cfmt with h0 | hm
    · exact absurd h0 h
    · rw [hm]
  · intro h
    by_cases hswap : f > l
    · rw [set_column_swap ws f l w fmt hid lvl hswap] at h ⊢
      exact (hmain ws l f (by omega)).1 h
    · exact (hmain ws f l hswap).1 h
  · intro h hrec
    by_cases hswap : f > l
    · rw [set_column_swap ws f l w fmt hid lvl hswap] at h ⊢
      exact (hmain ws l f (by omega)).2 h hrec
    · exact (hmain ws f l hswap).2 h hrec

/-- Witness for the amended claim C2: a width-only out of bounds
set_column call leaves the state unchanged and a failing write_number
call leaves the state unchanged. -/
theorem bounds_error_atomicity_witness :
    (write_number initWorksheet 2000000 0 1 none).2 = initWorksheet ∧
    (set_column initWorksheet 0 20000 (some 5) none false 0).2 = initWorksheet := by
  have h := bounds_error_atomicity initWorksheet 2000000 0 1 none
    0 20000 (some 5) none false 0
  exact ⟨h.1 (by decide), h.2.2 (by decide) (by decide)⟩

theorem check_dimensions_fail_opt (ws : Worksheet) (row col : Int)
    (h : ¬(row ≥ xls_rowmax ∨ col ≥ xls_colmax))
    (h2 : ws.optimization = 1 ∧ row < ws.previous_row) :
    check_dimensions ws row col false false = (-1, ws) := by
  unfold check_dimensions
  rw [if_neg h, if_pos ⟨rfl, rfl, h2.1, h2.2⟩]

theorem write_number_cases (ws : Worksheet) (row col : Int) (num : Rat)
    (format : Option FormatRef) :
    write_number ws row col num format = (-1, ws) ∨
    write_number ws row col num format =
      (0, { ws with
        dim_rowmin := some (dim_min_upd ws.dim_rowmin row),
        dim_rowmax := some (dim_max_upd ws.dim_rowmax row),
        dim_colmin := some (dim_min_upd ws.dim_colmin col),
        dim_colmax := some (dim_max_upd ws.dim_colmax col),
        table := aset ws.table row
          (aset ((alookup ws.table row).getD []) col
            (Cell.number num format)) }) := by
  by_cases hb : row ≥ xls_rowmax ∨ col ≥ xls_colmax
  · left; exact write_number_fail ws row col num format hb
  · by_cases hop : ws.optimization = 1 ∧ row < ws.previous_row
    · left
      unfold write_number
      rw [check_dimensions_fail_opt ws row col hb hop]
      rfl
    · right; exact write_number_ok ws row col num format hb hop

/-- The dimension tracker invariant: whenever both extrema of an axis are
defined, the minimum does not exceed the maximum. -/
def dims_invariant (ws : Worksheet) : Prop :=
  (∀ a b, ws.dim_rowmin = some a → ws.dim_rowmax = some b → a ≤ b) ∧
  (∀ a b, ws.dim_colmin = some a → ws.dim_colmax = some b → a ≤ b)

/-- Widening-only evolution of the tracked rectangle: defined minima never
increase and defined maxima never decrease, and neither becomes undefined. -/
def dims_monotone (ws ws2 : Worksheet) : Prop :=
  (∀ v, ws.dim_rowmin = some v → ∃ u, ws2.dim_rowmin = some u ∧ u ≤ v) ∧
  (∀ v, ws.dim_rowmax = some v → ∃ u, ws2.dim_rowmax = some u ∧ v ≤ u) ∧
  (∀ v, ws.dim_colmin = some v → ∃ u, ws2.dim_colmin = some u ∧ u ≤ v) ∧
  (∀ v, ws.dim_colmax = some v → ∃ u, ws2.dim_colmax = some u ∧ v ≤ u)

theorem dims_monotone_refl (ws : Worksheet) : dims_monotone ws ws :=
  ⟨fun v hv => ⟨v, hv, le_refl v⟩, fun v hv => ⟨v, hv, le_refl v⟩,
   fun v hv => ⟨v, hv, le_refl v⟩, fun v hv => ⟨v, hv, le_refl v⟩⟩

theorem dim_min_upd_twice (cur : Option Int) (a b : Int) (h : a ≤ b) :
    dim_min_upd (some (dim_min_upd cur a)) b = dim_min_upd cur a := by
  have hX := dim_min_upd_le cur a
  show (if b < dim_min_upd cur a then b else dim_min_upd cur a) = dim_min_upd cur a
  rw [if_neg (by omega)]

theorem dim_max_upd_twice (cur : Option Int) (a b : Int) (h : a ≤ b) :
    dim_max_upd (some (dim_max_upd cur a)) b = dim_max_upd cur b := by
  cases cur with
  | none =>
    simp only [dim_max_upd]
    split_ifs <;> omega
  | some m =>
    simp only [dim_max_upd]
    split_ifs <;> omega

theorem set_column_ok_dims (ws : Worksheet) (f l : Int) (w : Option Rat)
    (fmt : Option FormatRef) (hid : Bool) (lvl : Int)
    (hfl : ¬ f > l) (h : (set_column ws f l w fmt hid lvl).1 = 0) :
    (set_column ws f l w fmt hid lvl).2.dim_rowmin = ws.dim_rowmin ∧
    (set_column ws f l w fmt hid lvl).2.dim_rowmax = ws.dim_rowmax ∧
    ((fmt.isSome || (py_truthy_width w && hid)) = true →
      (set_column ws f l w fmt hid lvl).2.dim_colmin =
        some (dim_min_upd ws.dim_colmin f) ∧
      (set_column ws f l w fmt hid lvl).2.dim_colmax =
        some (dim_max_upd ws.dim_colmax l)) ∧
    ((fmt.isSome || (py_truthy_width w && hid)) = false →
      (set_column ws f l w fmt hid lvl).2.dim_colmin = ws.dim_colmin ∧
      (set_column ws f l w fmt hid lvl).2.dim_colmax = ws.dim_colmax) := by
  by_cases hf : f ≥ xls_colmax
  · rw [set_column_fail1 ws f l w fmt hid lvl hfl hf] at h
    exact absurd h (by norm_num)
  · push_neg at hf
    by_cases hl : l ≥ xls_colmax
    · rcases hrec : (fmt.isSome || (py_truthy_width w && hid)) with _ | _
      · rw [set_column_fail2_norec ws f l w fmt hid lvl hfl hf hl hrec] at h
        exact absurd h (by norm_num)
      · rw [set_column_fail2_rec ws f l w fmt hid lvl hfl hf hl hrec] at h
        exact absurd h (by norm_num)
    · push_neg at hl
      rcases hrec : (fmt.isSome || (py_truthy_width w && hid)) with _ | _
      · rw [set_column_ok_norec ws f l w fmt hid lvl hfl hf hl hrec]
        have hfr := set_column_tail_frame ws f l w fmt hid lvl
        refine ⟨hfr.1, hfr.2.1, fun hc => ?_, fun _ => ⟨hfr.2.2.1, hfr.2.2.2.1⟩⟩
        cases hc
      · rw [set_column_ok_rec ws f l w fmt hid lvl hfl hf hl hrec]
        have hfr := set_column_tail_frame
          { ws with
            dim_colmin := some (dim_min_upd (some (dim_min_upd ws.dim_colmin f)) l),
            dim_colmax := some (dim_max_upd (some (dim_max_upd ws.dim_colmax f)) l) }
          f l w fmt hid lvl
        refine ⟨hfr.1, hfr.2.1, fun _ => ⟨?_, ?_⟩, fun hc => by cases hc⟩
        · rw [hfr.2.2.1]
          rw [show dim_min_upd (some (dim_min_upd ws.dim_colmin f)) l =
            dim_min_upd ws.dim_colmin f from dim_min_upd_twice _ f l (by omega)]
        · rw [hfr.2.2.2.1]
          rw [show dim_max_upd (some (dim_max_upd ws.dim_colmax f)) l =
            dim_max_upd ws.dim_colmax l from dim_max_upd_twice _ f l (by omega)]

theorem set_column_invariant_aux (ws : Worksheet) (f l : Int) (w : Option Rat)
    (fmt : Option FormatRef) (hid : Bool) (lvl : Int)
    (hfl : ¬ f > l) (hinv : dims_invariant ws) :
    (set_column ws f l w fmt hid lvl).1 = 0 →
      dims_invariant (set_column ws f l w fmt hid lvl).2 := by
  intro h
  have hd := set_column_ok_dims ws f l w fmt hid lvl hfl h
  constructor
  · intro a b ha hb
    rw [hd.1] at ha
    rw [hd.2.1] at hb
    exact hinv.1 a b ha hb
  · rcases hrec : (fmt.isSome || (py_truthy_width w && hid)) with _ | _
    · have hc := hd.2.2.2 hrec
      intro a b ha hb
      rw [hc.1] at ha
      rw [hc.2] at hb
      exact hinv.2 a b ha hb
    · have hc := hd.2.2.1 hrec
      intro a b ha hb
      rw [hc.1] at ha
      rw [hc.2] at hb
      have h1 := Option.some.inj ha
      have h2 := Option.some.inj hb
      have h3 := dim_min_upd_le ws.dim_colmin f
      have h4 := dim_max_upd_ge ws.dim_colmax l
      omega

theorem set_column_monotone_aux (ws : Worksheet) (f l : Int) (w : Option Rat)
    (fmt : Option FormatRef) (hid : Bool) (lvl : Int) (hfl : ¬ f > l) :
    dims_monotone ws (set_column ws f l w fmt hid lvl).2 := by
  by_cases hf : f ≥ xls_colmax
  · rw [set_column_fail1 ws f l w fmt hid lvl hfl hf]
    exact dims_monotone_refl ws
  · push_neg at hf
    by_cases hl : l ≥ xls_colmax
    · rcases hrec : (fmt.isSome || (py_truthy_width w && hid)) with _ | _
      · rw [set_column_fail2_norec ws f l w fmt hid lvl hfl hf hl hrec]
        exact dims_monotone_refl ws
      · rw [set_column_fail2_rec ws f l w fmt hid lvl hfl hf hl hrec]
        refine ⟨fun v hv => ⟨v, hv, le_refl v⟩, fun v hv => ⟨v, hv, le_refl v⟩,
          ?_, ?_⟩
        · intro v hv
          refine ⟨dim_min_upd ws.dim_colmin f, rfl, ?_⟩
          rw [hv]
          exact dim_min_upd_le_old v f
        · intro v hv
          refine ⟨dim_max_upd ws.dim_colmax f, rfl, ?_⟩
          rw [hv]
          exact dim_max_upd_ge_old v f
    · push_neg at hl
      rcases hrec : (fmt.isSome || (py_truthy_width w && hid)) with _ | _
      · rw [set_column_ok_norec ws f l w fmt hid lvl hfl hf hl hrec]
        have hfr := set_column_tail_frame ws f l w fmt hid lvl
        exact ⟨fun v hv => ⟨v, hfr.1.trans hv, le_refl v⟩,
          fun v hv => ⟨v, hfr.2.1.trans hv, le_refl v⟩,
          fun v hv => ⟨v, hfr.2.2.1.trans hv, le_refl v⟩,
          fun v hv => ⟨v, hfr.2.2.2.1.trans hv, le_refl v⟩⟩
      · rw [set_column_ok_rec ws f l w fmt hid lvl hfl hf hl hrec]
        have hfr := set_column_tail_frame
          { ws with
            dim_colmin := some (dim_min_upd (some (dim_min_upd ws.dim_colmin f)) l),
            dim_colmax := some (dim_max_upd (some (dim_max_upd ws.dim_colmax f)) l) }
          f l w fmt hid lvl
        refine ⟨fun v hv => ⟨v, hfr.1.trans hv, le_refl v⟩,
          fun v hv => ⟨v, hfr.2.1.trans hv, le_refl v⟩, ?_, ?_⟩
        · intro v hv
          refine ⟨dim_min_upd (some (dim_min_upd ws.dim_colmin f)) l,
            hfr.2.2.1, ?_⟩
          rw [hv]
          exact le_trans (dim_min_upd_le_old _ l) (dim_min_upd_le_old v f)
        · intro v hv
          refine ⟨dim_max_upd (some (dim_max_upd ws.dim_colmax f)) l,
            hfr.2.2.2.1, ?_⟩
          rw [hv]
          exact le_trans (dim_max_upd_ge_old v f) (dim_max_upd_ge_old _ l)

/-- Claim C6: after every accepted write_number or set_column the tracked
bounds satisfy row_min ≤ row_max and col_min ≤ col_max whenever both are
defined, and every call (accepted or rejected) only widens the rectangle:
no call increases a defined row_min or col_min, and no call decreases a
defined row_max or col_max, nor makes a defined bound undefined. -/
theorem dimension_tracker_invariant (ws : Worksheet) (row col : Int)
    (num : Rat) (cfmt : Option FormatRef) (f l : Int) (w : Option Rat)
    (fmt : Option FormatRef) (hid : Bool) (lvl : Int)
    (hinv : dims_invariant ws) :
    ((write_number ws row col num cfmt).1 = 0 →
        dims_invariant (write_number ws row col num cfmt).2) ∧
    ((set_column ws f l w fmt hid lvl).1 = 0 →
        dims_invariant (set_column ws f l w fmt hid lvl).2) ∧
    dims_monotone ws (write_number ws row col num cfmt).2 ∧
    dims_monotone ws (set_column ws f l w fmt hid lvl).2 := by
  refine ⟨?_, ?_, ?_, ?_⟩
  · rcases write_number_cases ws row col num cfmt with h | h
    · rw [h]
      intro h0
      exact absurd h0 (by norm_num)
    · rw [h]
      intro _
      constructor
      · intro a b ha hb
        have h1 := Option.some.inj
          (ha : some (dim_min_upd ws.dim_rowmin row) = some a)
        have h2 := Option.some.inj
          (hb : some (dim_max_upd ws.dim_rowmax row) = some b)
        have h3 := dim_min_upd_le ws.dim_rowmin row
        have h4 := dim_max_upd_ge ws.dim_rowmax row
        omega
      · intro a b ha hb
        have h1 := Option.some.inj
          (ha : some (dim_min_upd ws.dim_colmin col) = some a)
        have h2 := Option.some.inj
          (hb : some (dim_max_upd ws.dim_colmax col) = some b)
        have h3 := dim_min_upd_le ws.dim_colmin col
        have h4 := dim_max_upd_ge ws.dim_colmax col
        omega
  · by_cases hswap : f > l
    · rw [set_column_swap ws f l w fmt hid lvl hswap]
      exact set_column_invariant_aux ws l f w fmt hid lvl (by omega) hinv
    · exact set_column_invariant_aux ws f l w fmt hid lvl hswap hinv
  · rcases write_number_cases ws row col num cfmt with h | h
    · rw [h]
      exact dims_monotone_refl ws
    · rw [h]
      refine ⟨?_, ?_, ?_, ?_⟩
      · intro v hv
        refine ⟨dim_min_upd ws.dim_rowmin row, rfl, ?_⟩
        rw [hv]
        exact dim_min_upd_le_old v row
      · intro v hv
        refine ⟨dim_max_upd ws.dim_rowmax row, rfl, ?_⟩
        rw [hv]
        exact dim_max_upd_ge_old v row
      · intro v hv
        refine ⟨dim_min_upd ws.dim_colmin col, rfl, ?_⟩
        rw [hv]
        exact dim_min_upd_le_old v col
      · intro v hv
        refine ⟨dim_max_upd ws.dim_colmax col, rfl, ?_⟩
        rw [hv]
        exact dim_max_upd_ge_old v col
  · by_cases hswap : f > l
    · rw [set_column_swap ws f l w fmt hid lvl hswap]
      exact set_column_monotone_aux ws l f w fmt hid lvl (by omega)
    · exact set_column_monotone_aux ws f l w fmt hid lvl hswap

/-- Witness for claim C6 at a concrete accepted write and column call. -/
theorem dimension_tracker_invariant_witness :
    dims_invariant (write_number initWorksheet 4 2 1 none).2 ∧
    dims_monotone initWorksheet (set_column initWorksheet 0 3 (some 10) none false 0).2 := by
  have h := dimension_tracker_invariant initWorksheet 4 2 1 none
    0 3 (some 10) none false 0
    ⟨fun a b ha _ => (by cases ha), fun a b ha _ => (by cases ha)⟩
  exact ⟨h.1 (by decide), h.2.2.2⟩

/-- Claim C9: for every successful set_column call the row dimension
bounds (row_min, row_max) are unchanged; the column dimension bounds are
updated to include first and last exactly when a style is supplied or
both a width and hidden are supplied (the minimum is widened by the
smaller endpoint and the maximum by the larger one, so both endpoints lie
inside the new bounds); a call without a style and without (width and
hidden) -- in particular a width-only call -- leaves all four dimension
bounds exactly as they were. -/
theorem set_column_dimension_frame (ws : Worksheet) (f l : Int)
    (w : Option Rat) (fmt : Option FormatRef) (hid : Bool) (lvl : Int)
    (h : (set_column ws f l w fmt hid lvl).1 = 0) :
    (set_column ws f l w fmt hid lvl).2.dim_rowmin = ws.dim_rowmin ∧
    (set_column ws f l w fmt hid lvl).2.dim_rowmax = ws.dim_rowmax ∧
    ((fmt.isSome || (py_truthy_width w && hid)) = true →
      (set_column ws f l w fmt hid lvl).2.dim_colmin =
        some (dim_min_upd ws.dim_colmin (min f l)) ∧
      (set_column ws f l w fmt hid lvl).2.dim_colmax =
        some (dim_max_upd ws.dim_colmax (max f l)) ∧
      dim_min_upd ws.dim_colmin (min f l) ≤ f ∧
      dim_min_upd ws.dim_colmin (min f l) ≤ l ∧
      f ≤ dim_max_upd ws.dim_colmax (max f l) ∧
      l ≤ dim_max_upd ws.dim_colmax (max f l)) ∧
    ((fmt.isSome || (py_truthy_width w && hid)) = false →
      (set_column ws f l w fmt hid lvl).2.dim_colmin = ws.dim_colmin ∧
      (set_column ws f l w fmt hid lvl).2.dim_colmax = ws.dim_colmax) := by
  have hmin := dim_min_upd_le ws.dim_colmin (min f l)
  have hmax := dim_max_upd_ge ws.dim_colmax (max f l)
  have hminf : (min f l : Int) ≤ f := min_le_left f l
  have hminl : (min f l : Int) ≤ l := min_le_right f l
  have hmaxf : f ≤ (max f l : Int) := le_max_left f l
  have hmaxl : l ≤ (max f l : Int) := le_max_right f l
  by_cases hswap : f > l
  · rw [set_column_swap ws f l w fmt hid lvl hswap] at h ⊢
    have hd := set_column_ok_dims ws l f w fmt hid lvl (by omega) h
    refine ⟨hd.1, hd.2.1, fun hc => ?_, hd.2.2.2⟩
    have hm1 : (min f l : Int) = l := by omega
    have hm2 : (max f l : Int) = f := by omega
    rw [hm1, hm2]
    have hc2 := hd.2.2.1 hc
    exact ⟨hc2.1, hc2.2, by rw [← hm1]; omega, by rw [← hm1]; omega,
      by rw [← hm2]; omega, by rw [← hm2]; omega⟩
  · have hd := set_column_ok_dims ws f l w fmt hid lvl hswap h
    refine ⟨hd.1, hd.2.1, fun hc => ?_, hd.2.2.2⟩
    have hm1 : (min f l : Int) = f := by omega
    have hm2 : (max f l : Int) = l := by omega
    rw [hm1, hm2]
    have hc2 := hd.2.2.1 hc
    exact ⟨hc2.1, hc2.2, by rw [← hm1]; omega, by rw [← hm1]; omega,
      by rw [← hm2]; omega, by rw [← hm2]; omega⟩

/-- Witness for claim C9: a successful styled call records the column
bounds and a successful width-only call leaves the bounds unchanged. -/
theorem set_column_dimension_frame_witness :
    (set_column initWorksheet 1 3 none (some ⟨1⟩) false 0).2.dim_rowmin =
      initWorksheet.dim_rowmin ∧
    (set_column initWorksheet 1 3 none (some ⟨1⟩) false 0).2.dim_colmin =
      some (dim_min_upd initWorksheet.dim_colmin (min 1 3)) ∧
    (set_column initWorksheet 1 3 (some 10) none false 0).2.dim_colmin =
      initWorksheet.dim_colmin := by
  have h1 := set_column_dimension_frame initWorksheet 1 3 none (some ⟨1⟩)
    false 0 (by decide)
  have h2 := set_column_dimension_frame initWorksheet 1 3 (some 10) none
    false 0 (by decide)
  exact ⟨h1.1, (h1.2.2.1 (by decide)).1, (h2.2.2.2 (by decide)).1⟩

/-! Serialization layer. -/

/-- Attribute values appearing in emitted XML attributes: strings,
integers or numeric (float) values. -/
inductive AVal where
  | s (v : String)
  | i (v : Int)
  | r (v : Rat)
deriving DecidableEq, Repr

/-- One call to the low level xmlwriter collaborator: a start tag, an end
tag, a self closing tag, or a number element (`_xml_number_element`). -/
inductive XmlEvent where
  | startTag (name : String) (attrs : List (String × AVal))
  | endTag (name : String)
  | emptyTag (name : String) (attrs : List (String × AVal))
  | numberElement (num : Rat) (attrs : List (String × AVal))
deriving DecidableEq, Repr

/-- Attribute list of an event. -/
def event_attrs : XmlEvent → List (String × AVal)
  | XmlEvent.startTag _ attrs => attrs
  | XmlEvent.endTag _ => []
  | XmlEvent.emptyTag _ attrs => attrs
  | XmlEvent.numberElement _ attrs => attrs

/-- Fuel based bijective base 26 letters: the fuel starts at the value
itself, which suffices since the value shrinks by a factor 26 each step. -/
def col_letters_core : Nat → Nat → String
  | _, 0 => ""
  | 0, _ + 1 => ""
  | fuel + 1, n + 1 =>
      col_letters_core fuel (n / 26) ++ String.mk [Char.ofNat (65 + n % 26)]

/-- Bijective base 26 representation of a positive column number
(1 gives A, 26 gives Z, 27 gives AA). -/
def col_letters (n : Nat) : String := col_letters_core n n

/-- Modelled from the spec: the coordinate conversion utility
xl_rowcol_to_cell (imported from utility.py, which is not part of the
provided source) converts a zero indexed (row, col) pair to the standard
alphanumeric A1 style cell reference (per spec section 6, row 0, col 0
gives A1): the column as bijective base 26 capital letters and the row as
the decimal numeral of row + 1. -/
def xl_rowcol_to_cell (row col : Nat) : String :=
  col_letters (col + 1) ++ Nat.repr (row + 1)

/-- Cell reference of a pair of optional coordinates; the undefined case
is the TypeError Python would raise when handing None to the utility. -/
def xl_cell_opt (row col : Option Int) : Except String String :=
  match row, col with
  | some r, some c => Except.ok (xl_rowcol_to_cell r.toNat c.toNat)
  | _, _ => Except.error "TypeError"

/-- Worksheet._write_dimension, the reference string of the dimension
element: "A1" when nothing is set, a row 0 reference when only columns
are set, a single cell when the rectangle degenerates, a range otherwise. -/
def write_dimension_ref (ws : Worksheet) : Except String String :=
  if ws.dim_rowmin = none ∧ ws.dim_colmin = none then
    Except.ok "A1"
  else if ws.dim_rowmin = none then
    if ws.dim_colmin = ws.dim_colmax then
      xl_cell_opt (some 0) ws.dim_colmin
    else do
      let c1 ← xl_cell_opt (some 0) ws.dim_colmin
      let c2 ← xl_cell_opt (some 0) ws.dim_colmax
      Except.ok (c1 ++ ":" ++ c2)
  else if ws.dim_rowmin = ws.dim_rowmax ∧ ws.dim_colmin = ws.dim_colmax then
    xl_cell_opt ws.dim_rowmin ws.dim_colmin
  else do
    let c1 ← xl_cell_opt ws.dim_rowmin ws.dim_colmin
    let c2 ← xl_cell_opt ws.dim_rowmax ws.dim_colmax
    Except.ok (c1 ++ ":" ++ c2)

/-- Worksheet._write_dimension as an emitted event. -/
def write_dimension (ws : Worksheet) : Except String XmlEvent := do
  let ref ← write_dimension_ref ws
  Except.ok (XmlEvent.emptyTag "dimension" [("ref", AVal.s ref)])

/-- Worksheet._write_col_info. The conversion is guarded by `width > 0`,
so the Python truncation `int(...)` agrees with the floor used here. -/
def write_col_info (colinfo : ColInfo) : XmlEvent :=
  let collapsed : Int := 0
  let xf_index : Int :=
    match colinfo.format with
    | some f => f.xf_index
    | none => 0
  let wc : Rat × Bool :=
    match colinfo.width with
    | none => if ¬colinfo.hidden then ((8.43 : Rat), false) else ((0 : Rat), true)
    | some w => if w = (8.43 : Rat) then (w, false) else (w, true)
  let width0 := wc.1
  let custom_width := wc.2
  let width := if width0 > 0 then
      ((Int.floor ((width0 * 7 + 5) / 7 * 256) : Rat) / 256)
    else width0
  let attrs := [("min", AVal.i (colinfo.firstcol + 1)),
                ("max", AVal.i (colinfo.lastcol + 1)),
                ("width", AVal.r width)]
  let attrs := attrs ++ (if xf_index ≠ 0 then [("style", AVal.i xf_index)] else [])
  let attrs := attrs ++ (if colinfo.hidden then [("hidden", AVal.s "1")] else [])
  let attrs := attrs ++ (if custom_width then [("customWidth", AVal.s "1")] else [])
  let attrs := attrs ++ (if colinfo.level ≠ 0 then [("outlineLevel", AVal.i colinfo.level)] else [])
  let attrs := attrs ++ (if collapsed ≠ 0 then [("collapsed", AVal.s "1")] else [])
  XmlEvent.emptyTag "col" attrs

/-- Widening step of the running span accumulator; the unreachable pair
(some, none) is left unchanged (span_max is set whenever span_min is). -/
def span_widen (p : Option Int × Option Int) (c : Int) : Option Int × Option Int :=
  match p with
  | (none, _) => (some c, some c)
  | (some mn, some mx) =>
      (some (if c < mn then c else mn), some (if c > mx then c else mx))
  | (some mn, none) => (some mn, none)

/-- Worksheet._calculate_spans: per block of 16 rows, the 1 indexed
minimal column range holding cell or comment data. Paths on which the
Python code would raise are errors. -/
def calculate_spans (ws : Worksheet) : Except String (List (Int × String)) :=
  match ws.dim_rowmin, ws.dim_rowmax with
  | some rmin, some rmax => do
    let st ← (intRange rmin (rmax + 1)).foldlM
      (fun (st : Option Int × Option Int × List (Int × String)) r => do
        let (span_min, span_max, spans) := st
        let (span_min, span_max) ←
          if (alookup ws.table r).isSome then
            match ws.dim_colmin, ws.dim_colmax with
            | some cmin, some cmax =>
              pure ((intRange cmin (cmax + 1)).foldl
                (fun p c =>
                  if (alookup ((alookup ws.table r).getD []) c).isSome then
                    span_widen p c
                  else p)
                (span_min, span_max))
            | _, _ => (Except.error "TypeError" : Except String (Option Int × Option Int))
          else pure (span_min, span_max)
        let (span_min, span_max) ←
          match alookup ws.comments r with
          | some cdict =>
            match ws.dim_colmin, ws.dim_colmax with
            | some cmin, some cmax =>
              (intRange cmin (cmax + 1)).foldlM
                (fun (p : Option Int × Option Int) c =>
                  match alookup cdict c with
                  | none => (Except.error "KeyError" : Except String (Option Int × Option Int))
                  | some v => if v.isSome then pure (span_widen p c) else pure p)
                (span_min, span_max)
            | _, _ => Except.error "TypeError"
          | none => pure (span_min, span_max)
        if ((r + 1).emod 16 = 0) ∨ r = rmax then
          match span_min, span_max with
          | some mn, some mx =>
            pure ((none : Option Int), some (mx + 1),
              aset spans (r.tdiv 16)
                (toString (mn + 1) ++ ":" ++ toString (mx + 1)))
          | some _, none => Except.error "TypeError"
          | none, _ => pure (span_min, span_max, spans)
        else
          pure (span_min, span_max, spans))
      ((none : Option Int), (none : Option Int), ([] : List (Int × String)))
    pure st.2.2
  | _, _ => Except.error "TypeError"

/-- Worksheet._write_row: the row element with its attributes; passing
no properties uses the defaults (15, None, 0, 0, 0). -/
def write_row (ws : Worksheet) (r : Int) (spans : Option String)
    (props : Option RowProps) (empty_row : Bool) : XmlEvent :=
  let height : Option Rat := match props with | some p => p.height | none => some 15
  let format : Option FormatRef := match props with | some p => p.format | none => none
  let hidden : Bool := match props with | some p => p.hidden | none => false
  let level : Int := match props with | some p => p.level | none => 0
  let collapsed : Bool := match props with | some p => p.collapsed | none => false
  let height2 : Rat := match height with | none => ws.default_row_height | some h => h
  let xf_index : Int := match format with | some f => f.xf_index | none => 0
  let attrs := [("r", AVal.i (r + 1))]
  let attrs := attrs ++ (match spans with | some s => [("spans", AVal.s s)] | none => [])
  let attrs := attrs ++ (if xf_index ≠ 0 then [("s", AVal.i xf_index)] else [])
  let attrs := attrs ++ (if format.isSome then [("customFormat", AVal.i 1)] else [])
  let attrs := attrs ++ (if height2 ≠ 15 then [("ht", AVal.r height2)] else [])
  let attrs := attrs ++ (if hidden then [("hidden", AVal.i 1)] else [])
  let attrs := attrs ++ (if height2 ≠ 15 then [("customHeight", AVal.i 1)] else [])
  let attrs := attrs ++ (if level ≠ 0 then [("outlineLevel", AVal.i level)] else [])
  let attrs := attrs ++ (if collapsed then [("collapsed", AVal.i 1)] else [])
  let attrs := attrs ++ (if ws.excel_version = 2010
    then [("x14ac:dyDescent", AVal.s "0.25")] else [])
  if empty_row then XmlEvent.emptyTag "row" attrs
  else XmlEvent.startTag "row" attrs

/-- Modelled from the spec: Worksheet._write_empty_row is called by the
row serializer but its definition is missing from the provided source;
per spec section 4.5 step 7 it emits an empty row tag carrying the row
properties, i.e. the row writer with the empty flag set. -/
def write_empty_row (ws : Worksheet) (r : Int) (spans : Option String)
    (props : Option RowProps) : XmlEvent :=
  write_row ws r spans props true

/-- Worksheet._write_cell for the Number variant: the cell reference, a
style resolved from the cell, else the row, else the column, and the
number payload. -/
def write_cell (ws : Worksheet) (row col : Int) (cell : Cell) : XmlEvent :=
  match cell with
  | Cell.number num fmt =>
    let range := xl_rowcol_to_cell row.toNat col.toNat
    let base := [("r", AVal.s range)]
    let row_fmt : Option FormatRef :=
      match alookup ws.set_rows row with
      | some p => p.format
      | none => none
    let attrs :=
      match fmt with
      | some f => base ++ [("s", AVal.i f.xf_index)]
      | none =>
        match row_fmt with
        | some rf => base ++ [("s", AVal.i rf.xf_index)]
        | none =>
          match alookup ws.col_formats col with
          | some cf => base ++ [("s", AVal.i cf.xf_index)]
          | none => base
    XmlEvent.numberElement num attrs

/-- Worksheet._write_rows: compute the spans, then walk the rows of the
dimension; a row with data emits its cells by direct indexing over the
column range of the dimension (a KeyError on sparse rows), a row without
data reads `self.comments[row_num]` directly (a KeyError when the row has
no comments entry) and emits an empty row with `self.set_rows[row_num]`. -/
def write_rows (ws0 : Worksheet) : Except String (List XmlEvent) := do
  let spans ← calculate_spans ws0
  let ws := { ws0 with row_spans := spans }
  match ws.dim_rowmin, ws.dim_rowmax with
  | some rmin, some rmax =>
    (intRange rmin (rmax + 1)).foldlM (fun acc r => do
      if (alookup ws.set_rows r).isSome ∨ (alookup ws.comments r).isSome ∨
          ((alookup ws.table r).getD []) ≠ [] then
        let span ←
          match alookup ws.row_spans (r.tdiv 16) with
          | some s => pure s
          | none => (Except.error "KeyError" : Except String String)
        if ((alookup ws.table r).getD []) ≠ [] then
          let rowEv :=
            match alookup ws.set_rows r with
            | none => write_row ws r (some span) none false
            | some p => write_row ws r (some span) (some p) false
          match ws.dim_colmin, ws.dim_colmax with
          | some cmin, some cmax => do
            let acc2 ← (intRange cmin (cmax + 1)).foldlM (fun a c => do
                match alookup ((alookup ws.table r).getD []) c with
                | none => (Except.error "KeyError" : Except String (List XmlEvent))
                | some cell => pure (a ++ [write_cell ws r c cell]))
              (acc ++ [rowEv])
            pure (acc2 ++ [XmlEvent.endTag "row"])
          | _, _ => Except.error "TypeError"
        else
          match alookup ws.comments r with
          | none => (Except.error "KeyError" : Except String (List XmlEvent))
          | some cdict =>
            if cdict ≠ [] then
              match alookup ws.set_rows r with
              | none => (Except.error "KeyError" : Except String (List XmlEvent))
              | some p => pure (acc ++ [write_empty_row ws r (some span) (some p)])
            else
              match alookup ws.set_rows r with
              | none => (Except.error "KeyError" : Except String (List XmlEvent))
              | some p => pure (acc ++ [write_empty_row ws r (some span) (some p)])
      else pure acc) []
  | _, _ => Except.error "TypeError"

/-- Worksheet obtained by writing the number 1 (no format) at a list of
coordinates, in order, starting from the fresh worksheet. -/
def ws_of_writes (l : List (Int × Int)) : Worksheet :=
  l.foldl (fun ws rc => (write_number ws rc.1 rc.2 1 none).2) initWorksheet

/-- Claim C3 (evaluation at the failing input): a worksheet with cells at
(0,0) and (0,2) has a sparse data row (column 1 of [col_min, col_max] has
no cell), and serializing its rows raises KeyError at the missing column
instead of skipping it, because the cell loop reads
`self.table[row_num][col_num]` without a membership test; a dense row
(cells at (0,0) and (0,1)) serializes fine, emitting the row start, the
present cells in increasing column order and the row end. -/
theorem write_rows_sparse_keyerror :
    write_rows (ws_of_writes [(0, 0), (0, 2)]) = Except.error "KeyError" ∧
    write_rows (ws_of_writes [(0, 0), (0, 1)]) = Except.ok
      [XmlEvent.startTag "row" [("r", AVal.i 1), ("spans", AVal.s "1:2")],
       XmlEvent.numberElement 1 [("r", AVal.s "A1")],
       XmlEvent.numberElement 1 [("r", AVal.s "B1")],
       XmlEvent.endTag "row"] := by
  exact ⟨rfl, rfl⟩

/-- Worksheet with cells in rows 0 and 2 and an explicit row property
entry for the blank row 1 (the row property store is populated directly;
the set_row method is outside the provided source). -/
def ws_blank_props_row : Worksheet :=
  { ws_of_writes [(0, 0), (2, 0)] with
    set_rows := [(1, { height := some 15, format := none, hidden := false,
                       level := 0, collapsed := false })] }

/-- Claim C4 (evaluation at the failing input): serializing a worksheet
whose row 1 has explicit row properties but no cells and no comments
raises KeyError, because the blank row branch reads
`self.comments[row_num]` directly instead of performing a membership
test, so the empty row tag with the row properties is never emitted. -/
theorem write_rows_blank_row_keyerror :
    write_rows ws_blank_props_row = Except.error "KeyError" := by
  exact rfl

/-- Claim C8: iterating the rows of the dimension and accumulating the
minimal column range of cell or comment data, a span keyed by block index
row div 16 is emitted whenever row + 1 is divisible by 16 or the last row
is reached and the accumulator is non empty, after which the accumulator
is reset: with data in rows 0 to 15 only in columns 2 and 7 the computed
mapping has block 0 mapped to "3:8" (1 indexed, inclusive), and with an
extra cell at (16, 4) a second block 1 mapped to "5:5" is emitted after
the reset. -/
theorem calculate_spans_block_spec :
    calculate_spans (ws_of_writes [(0, 2), (0, 7), (15, 2), (15, 7)]) =
      Except.ok [(0, "3:8")] ∧
    calculate_spans (ws_of_writes [(0, 2), (0, 7), (15, 2), (15, 7), (16, 4)]) =
      Except.ok [(0, "3:8"), (1, "5:5")] := by
  exact ⟨rfl, rfl⟩

/-- Claim C7: the serialized dimension reference is the fixed token "A1"
when no bounds were ever set; when only column bounds are set it spans
row 0 over [col_min, col_max], collapsing to the single row 0 cell when
col_min = col_max; it is the single cell reference of (row_min, col_min)
when both axes degenerate; otherwise it is the range reference from
(row_min, col_min) to (row_max, col_max); concretely, the worksheet with
only the written cell (5,5) yields "F6" and cells spanning (0,0) to (2,3)
yield "A1:D3". -/
theorem write_dimension_reference_spec (ws : Worksheet) :
    (ws.dim_rowmin = none → ws.dim_colmin = none →
      write_dimension_ref ws = Except.ok "A1") ∧
    (∀ c, ws.dim_rowmin = none → ws.dim_colmin = some c →
      ws.dim_colmax = some c →
      write_dimension_ref ws = Except.ok (xl_rowcol_to_cell 0 c.toNat)) ∧
    (∀ c d, ws.dim_rowmin = none → ws.dim_colmin = some c →
      ws.dim_colmax = some d → c ≠ d →
      write_dimension_ref ws =
        Except.ok (xl_rowcol_to_cell 0 c.toNat ++ ":" ++
          xl_rowcol_to_cell 0 d.toNat)) ∧
    (∀ r c, ws.dim_rowmin = some r → ws.dim_rowmax = some r →
      ws.dim_colmin = some c → ws.dim_colmax = some c →
      write_dimension_ref ws = Except.ok (xl_rowcol_to_cell r.toNat c.toNat)) ∧
    (∀ r1 r2 c1 c2, ws.dim_rowmin = some r1 → ws.dim_rowmax = some r2 →
      ws.dim_colmin = some c1 → ws.dim_colmax = some c2 →
      (r1 ≠ r2 ∨ c1 ≠ c2) →
      write_dimension_ref ws =
        Except.ok (xl_rowcol_to_cell r1.toNat c1.toNat ++ ":" ++
          xl_rowcol_to_cell r2.toNat c2.toNat)) ∧
    write_dimension_ref (ws_of_writes [(5, 5)]) = Except.ok "F6" ∧
    write_dimension_ref (ws_of_writes [(0, 0), (2, 3)]) = Except.ok "A1:D3" := by
  refine ⟨?_, ?_, ?_, ?_, ?_, rfl, rfl⟩
  · intro h1 h2
    unfold write_dimension_ref
    rw [if_pos ⟨h1, h2⟩]
  · intro c h1 h2 h3
    unfold write_dimension_ref
    rw [if_neg (fun hc => by rw [h2] at hc; cases hc.2),
      if_pos h1, if_pos (h2.trans h3.symm), h2]
    rfl
  · intro c d h1 h2 h3 hne
    unfold write_dimension_ref
    rw [if_neg (fun hc => by rw [h2] at hc; cases hc.2),
      if_pos h1,
      if_neg (fun hc => by rw [h2, h3] at hc; exact hne (Option.some.inj hc)),
      h2, h3]
    rfl
  · intro r c h1 h2 h3 h4
    unfold write_dimension_ref
    rw [if_neg (fun hc => by rw [h1] at hc; cases hc.1),
      if_neg (fun hc => by rw [h1] at hc; cases hc),
      if_pos ⟨h1.trans h2.symm, h3.trans h4.symm⟩, h1, h3]
    rfl
  · intro r1 r2 c1 c2 h1 h2 h3 h4 hne
    unfold write_dimension_ref
    rw [if_neg (fun hc => by rw [h1] at hc; cases hc.1),
      if_neg (fun hc => by rw [h1] at hc; cases hc),
      if_neg (fun hc => by
        rw [h1, h2, h3, h4] at hc
        rcases hne with hne | hne
        · exact hne (Option.some.inj hc.1)
        · exact hne (Option.some.inj hc.2)),
      h1, h2, h3, h4]
    rfl

/-- Witness for claim C7: the fresh worksheet serializes to "A1" and the
degenerate column-only and single-cell cases evaluate as stated. -/
theorem write_dimension_reference_spec_witness :
    write_dimension_ref initWorksheet = Except.ok "A1" ∧
    write_dimension_ref (set_column initWorksheet 2 2 none (some ⟨1⟩) false 0).2 =
      Except.ok (xl_rowcol_to_cell 0 (2 : Int).toNat) := by
  constructor
  · exact (write_dimension_reference_spec initWorksheet).1 rfl rfl
  · exact (write_dimension_reference_spec
      (set_column initWorksheet 2 2 none (some ⟨1⟩) false 0).2).2.1
      2 (by rfl) (by rfl) (by rfl)

/-- Claim C10 counterexample: for the column range configured with no
width and hidden, the emitted col element carries customWidth although no
width was supplied, and its width attribute is the raw 0, not the claimed
conversion of the effective width 0 (which would be 182/256): the
conversion only runs when the effective width is positive, and the
custom width flag stays set in the hidden-without-width branch. -/
theorem write_col_info_customwidth_counterexample :
    (("customWidth", AVal.s "1") ∈
      event_attrs (write_col_info ⟨0, 0, none, none, true, 0⟩)) ∧
    List.lookup "width" (event_attrs (write_col_info ⟨0, 0, none, none, true, 0⟩)) =
      some (AVal.r 0) ∧
    ((Int.floor (((0 : Rat) * 7 + 5) / 7 * 256) : Rat) / 256) ≠ (0 : Rat) := by
  refine ⟨by decide, by rfl, by norm_num⟩

/-- Claim C10 (amended): the width attribute of the emitted col element
equals the conversion floor((w * 7 + 5) / 7 * 256) / 256 of the effective
width w when w is positive and equals w unchanged otherwise, where w is
8.43 if the supplied width is unset and the range is not hidden, 0 if the
width is unset and the range is hidden, and the supplied width otherwise;
the customWidth flag is emitted exactly when a width is supplied and
differs from the literal default 8.43, or no width is supplied and the
range is hidden. -/
theorem write_col_info_width_attrs (ci : ColInfo) :
    List.lookup "width" (event_attrs (write_col_info ci)) =
      some (AVal.r (
        let w0 : Rat := match ci.width with
          | none => if ci.hidden then 0 else 8.43
          | some w => w
        if w0 > 0 then ((Int.floor ((w0 * 7 + 5) / 7 * 256) : Rat) / 256)
        else w0)) ∧
    (("customWidth", AVal.s "1") ∈ event_attrs (write_col_info ci) ↔
      ((∃ w, ci.width = some w ∧ w ≠ (8.43 : Rat)) ∨
        (ci.width = none ∧ ci.hidden = true))) := by
  obtain ⟨f, l, width, fmt, hid, lvl⟩ := ci
  cases width with
  | none =>
    cases hid with
    | false =>
      constructor
      · rfl
      · simp [write_col_info, event_attrs, List.mem_append]
    | true =>
      constructor
      · rfl
      · simp [write_col_info, event_attrs, List.mem_append]
  | some w =>
    by_cases h843 : w = (8.43 : Rat)
    · subst h843
      constructor
      · simp only [write_col_info, event_attrs]
        rfl
      · simp [write_col_info, event_attrs, List.mem_append]
    · constructor
      · simp only [write_col_info, event_attrs, if_neg h843]
        rfl
      · simp [write_col_info, event_attrs, List.mem_append, h843]
